import Mathlib

/-!
Shallow embedding of `migrate_levels.py`: a one-shot migration of a nested
JSON document of per-guild, per-user progression data into two relational
tables (`user_profiles`, `daily_goals`).

Modelling conventions:
* JSON values are `JVal`; objects are association lists with distinct keys
  (as produced by `json.load`, which yields Python dicts).
* Python `dict.get(k, d)` is `jget`; `dict.get(k)` is `jget _ k .null`
  (Python `None` is the JSON `null` in this model).
* Python `int(s)` on a string is `parsePyInt` (strip surrounding whitespace,
  optional sign, decimal digits; `None` result models `ValueError`).
* `json.dumps` is `jdump` (default separators; string escaping is not
  modelled, which is irrelevant to the properties proved here).
* The SQLite tables are association lists keyed by primary key;
  `INSERT OR REPLACE` is `upsertBy`, which replaces the row in place when
  the key exists and appends otherwise.
* Uncaught Python exceptions (`AttributeError` from calling `.get` on a
  non-dict, a failed `json.load`) are `Except.error`.
* The filesystem is a pair of oracles: `fsExists` models `os.path.exists`,
  `fsRead` models `open` + `json.load` (`none` = either step raises).
* `print` output is collected in a `List String` log.
-/

namespace MigrateLevels

/-- JSON values as produced by `json.load` (floats are not modelled; no
claim depends on them). -/
inductive JVal where
  | null
  | bool (b : Bool)
  | int (n : Int)
  | str (s : String)
  | arr (xs : List JVal)
  | obj (kvs : List (String × JVal))

/-- Python truthiness of a JSON value (`if daily_goal:`). -/
def JVal.truthy : JVal → Bool
  | .null => false
  | .bool b => b
  | .int n => n != 0
  | .str s => !s.isEmpty
  | .arr xs => !xs.isEmpty
  | .obj kvs => !kvs.isEmpty

/-- Whether a JSON value is an object (Python `isinstance(v, dict)`). -/
def JVal.isObj : JVal → Bool
  | .obj _ => true
  | _ => false

mutual

/-- `json.dumps` with default separators (string escaping not modelled). -/
def jdump : JVal → String
  | .null => "null"
  | .bool b => if b then "true" else "false"
  | .int n => toString n
  | .str s => "\"" ++ s ++ "\""
  | .arr xs => "[" ++ jdumpElems xs ++ "]"
  | .obj kvs => "\x7b" ++ jdumpFields kvs ++ "\x7d"

/-- Comma-separated serialization of array elements. -/
def jdumpElems : List JVal → String
  | [] => ""
  | [x] => jdump x
  | x :: y :: xs => jdump x ++ ", " ++ jdumpElems (y :: xs)

/-- Comma-separated serialization of object fields. -/
def jdumpFields : List (String × JVal) → String
  | [] => ""
  | [(k, v)] => "\"" ++ k ++ "\": " ++ jdump v
  | (k, v) :: p :: kvs => "\"" ++ k ++ "\": " ++ jdump v ++ ", " ++ jdumpFields (p :: kvs)

end

/-- First value bound to key `k` in an object's field list (fields of a
`json.load`ed object have distinct keys, so "first" is "the"). -/
def jlook (kvs : List (String × JVal)) (k : String) : Option JVal :=
  match kvs with
  | [] => none
  | (k', v) :: rest => if k' = k then some v else jlook rest k

/-- Python `dict.get(k, d)`: the value at `k`, or the default `d`. -/
def jget (kvs : List (String × JVal)) (k : String) (d : JVal) : JVal :=
  match kvs with
  | [] => d
  | (k', v) :: rest => if k' = k then v else jget rest k d

/-- Python `dict.pop(k, ...)` restricted to its removal effect. -/
def removeKey (kvs : List (String × JVal)) (k : String) : List (String × JVal) :=
  kvs.filter (fun p => p.1 ≠ k)

/-- Characters stripped by Python `int()` around a numeric literal. -/
def isPySpace (c : Char) : Bool :=
  c = ' ' || c = '\t' || c = '\n' || c = '\r'

/-- Strip leading and trailing whitespace. -/
def pyStrip (cs : List Char) : List Char :=
  ((cs.dropWhile isPySpace).reverse.dropWhile isPySpace).reverse

/-- All characters are decimal digits. -/
def allDigits (cs : List Char) : Bool :=
  cs.all (fun c => '0' ≤ c && c ≤ '9')

/-- Numeric value of a decimal digit string. -/
def digitsVal (cs : List Char) : Nat :=
  cs.foldl (fun a c => a * 10 + (c.toNat - 48)) 0

/-- Python `int(s)` on a string: `some` the parsed integer, `none` models
`ValueError`. (Underscore digit grouping and non-ASCII digits accepted by
CPython are not modelled; no claim depends on them.) -/
def parsePyInt (s : String) : Option Int :=
  match pyStrip s.data with
  | '-' :: cs => if !cs.isEmpty && allDigits cs then some (-(digitsVal cs : Int)) else none
  | '+' :: cs => if !cs.isEmpty && allDigits cs then some ((digitsVal cs : Int)) else none
  | cs => if !cs.isEmpty && allDigits cs then some ((digitsVal cs : Int)) else none

/-- A `user_profiles` row, exactly the 21 columns bound at lines 108-122 of
`migrate_levels.py`. Column values other than the key and the serialized
lists are stored verbatim from the source document (SQLite stores whatever
value is bound), so they are `JVal`s. -/
structure UserRow where
  user_id : Int
  guild_id : Int
  level : JVal
  total_xp : JVal
  xp_to_next_level : JVal
  total_commands_used : JVal
  total_messages : JVal
  last_daily : JVal
  daily_streak : JVal
  last_message_timestamp : JVal
  achievements : String
  best_rank : JVal
  previous_rank : JVal
  rank_improvement : JVal
  images_shared : JVal
  long_messages : JVal
  links_shared : JVal
  goals_completed : JVal
  boost_days : JVal
  first_boost_date : JVal
  xp_history : String

/-- A `daily_goals` row, exactly the 7 columns bound at lines 146-152. -/
structure GoalRow where
  guild_id : Int
  date : JVal
  target : JVal
  progress : JVal
  claimers : String
  completed : JVal
  bonus_awarded_to : String

/-- The relational store: both tables as association lists keyed by primary
key (`(user_id, guild_id)` and `guild_id`). -/
structure DB where
  user_profiles : List ((Int × Int) × UserRow)
  daily_goals : List (Int × GoalRow)

/-- The store of a freshly created database file. -/
def emptyDB : DB := ⟨[], []⟩

/-- `INSERT OR REPLACE` keyed by primary key: replace the row in place if
the key is present, append otherwise. -/
def upsertBy [DecidableEq κ] (k : κ) (v : α) : List (κ × α) → List (κ × α)
  | [] => [(k, v)]
  | (k', v') :: rest => if k' = k then (k, v) :: rest else (k', v') :: upsertBy k v rest

/-- `SELECT ... WHERE key = k`: the row stored under primary key `k`. -/
def lookupBy [DecidableEq κ] (k : κ) : List (κ × α) → Option α
  | [] => none
  | (k', v) :: rest => if k' = k then some v else lookupBy k rest

/-- Apply a sequence of upserts in order. -/
def applyAllBy [DecidableEq κ] (ws : List (κ × α)) (t : List (κ × α)) : List (κ × α) :=
  ws.foldl (fun acc p => upsertBy p.1 p.2 acc) t

/-- The value of the last write to key `k` in a write sequence, if any. -/
def lastVal [DecidableEq κ] (k : κ) : List (κ × α) → Option α
  | [] => none
  | (k', v) :: rest =>
    match lastVal k rest with
    | some w => some w
    | none => if k' = k then some v else none

/-- The `user_profiles` row built from one user record (lines 84-107 of
`migrate_levels.py`): every field read with `.get` and its literal default,
list-valued fields serialized with `json.dumps`. -/
def mkUserRow (user_id guild_id : Int) (user_data : List (String × JVal)) : UserRow where
  user_id := user_id
  guild_id := guild_id
  level := jget user_data "level" (.int 1)
  total_xp := jget user_data "total_xp" (.int 0)
  xp_to_next_level := jget user_data "xp_to_next_level" (.int 100)
  total_commands_used := jget user_data "total_commands_used" (.int 0)
  total_messages := jget user_data "total_messages" (.int 0)
  last_daily := jget user_data "last_daily" .null
  daily_streak := jget user_data "daily_streak" (.int 0)
  last_message_timestamp := jget user_data "last_message_timestamp" .null
  achievements := jdump (jget user_data "achievements" (.arr []))
  best_rank := jget user_data "best_rank" (.int 999)
  previous_rank := jget user_data "previous_rank" (.int 999)
  rank_improvement := jget user_data "rank_improvement" (.int 0)
  images_shared := jget user_data "images_shared" (.int 0)
  long_messages := jget user_data "long_messages" (.int 0)
  links_shared := jget user_data "links_shared" (.int 0)
  goals_completed := jget user_data "goals_completed" (.int 0)
  boost_days := jget user_data "boost_days" (.int 0)
  first_boost_date := jget user_data "first_boost_date" .null
  xp_history := jdump (jget user_data "xp_history" (.arr []))

/-- The `daily_goals` row built from one `daily_goal` object (lines
138-144). -/
def mkGoalRow (guild_id : Int) (daily_goal : List (String × JVal)) : GoalRow where
  guild_id := guild_id
  date := jget daily_goal "date" (.str "")
  target := jget daily_goal "target" (.int 0)
  progress := jget daily_goal "progress" (.int 0)
  claimers := jdump (jget daily_goal "claimers" (.arr []))
  completed := jget daily_goal "completed" (.bool false)
  bonus_awarded_to := jdump (jget daily_goal "bonus_awarded_to" (.arr []))

/-- The `user_profiles` row carrying exactly the documented defaults of
lines 84-107 (every optional field absent from the source record). -/
def defaultUserRow (user_id guild_id : Int) : UserRow where
  user_id := user_id
  guild_id := guild_id
  level := .int 1
  total_xp := .int 0
  xp_to_next_level := .int 100
  total_commands_used := .int 0
  total_messages := .int 0
  last_daily := .null
  daily_streak := .int 0
  last_message_timestamp := .null
  achievements := "[]"
  best_rank := .int 999
  previous_rank := .int 999
  rank_improvement := .int 0
  images_shared := .int 0
  long_messages := .int 0
  links_shared := .int 0
  goals_completed := .int 0
  boost_days := .int 0
  first_boost_date := .null
  xp_history := "[]"

/-- The `daily_goals` row carrying exactly the documented defaults of
lines 138-144 (every field absent from the `daily_goal` object). -/
def defaultGoalRow (guild_id : Int) : GoalRow where
  guild_id := guild_id
  date := .str ""
  target := .int 0
  progress := .int 0
  claimers := "[]"
  completed := .bool false
  bonus_awarded_to := "[]"

/-- The inner loop over one guild's user records (lines 78-123): skip a
user whose key fails `int()`; calling `.get` on a non-dict record raises
`AttributeError` (uncaught); otherwise upsert the mapped row and increment
the count. -/
def migrateUserEntries (guild_id : Int) :
    List (String × JVal) → DB → Nat → Except String (DB × Nat)
  | [], st, cnt => .ok (st, cnt)
  | (user_id_str, user_data) :: rest, st, cnt =>
    match parsePyInt user_id_str with
    | none => migrateUserEntries guild_id rest st cnt
    | some user_id =>
      match user_data with
      | .obj kvs =>
        migrateUserEntries guild_id rest
          { st with user_profiles :=
              upsertBy (user_id, guild_id) (mkUserRow user_id guild_id kvs) st.user_profiles }
          (cnt + 1)
      | _ => .error "AttributeError"

/-- The outer loop over the progression section (lines 68-123): a guild key
failing `int()` is skipped with a printed message; a guild whose value is
not a dict is skipped silently (line 75); otherwise the user loop runs. -/
def migrateGuildEntries :
    List (String × JVal) → DB → Nat → List String → Except String (DB × Nat × List String)
  | [], st, cnt, log => .ok (st, cnt, log)
  | (guild_id_str, users) :: rest, st, cnt, log =>
    match parsePyInt guild_id_str with
    | none =>
      migrateGuildEntries rest st cnt (log ++ ["Skipping invalid guild ID: " ++ guild_id_str])
    | some guild_id =>
      match users with
      | .obj ukvs =>
        match migrateUserEntries guild_id ukvs st cnt with
        | .ok (st', cnt') => migrateGuildEntries rest st' cnt' log
        | .error e => .error e
      | _ => migrateGuildEntries rest st cnt log

/-- The loop over the metadata section (lines 130-153): a guild key failing
`int()` is skipped; `.get` on a non-dict guild meta raises; a falsy
`daily_goal` writes nothing; a truthy `daily_goal` that is a dict is mapped
and upserted, a truthy non-dict raises at `.get`. -/
def migrateMetaEntries :
    List (String × JVal) → DB → Nat → Except String (DB × Nat)
  | [], st, cnt => .ok (st, cnt)
  | (guild_id_str, guild_meta) :: rest, st, cnt =>
    match parsePyInt guild_id_str with
    | none => migrateMetaEntries rest st cnt
    | some guild_id =>
      match guild_meta with
      | .obj mkvs =>
        let daily_goal := jget mkvs "daily_goal" .null
        if daily_goal.truthy then
          match daily_goal with
          | .obj dgkvs =>
            migrateMetaEntries rest
              { st with daily_goals :=
                  upsertBy guild_id (mkGoalRow guild_id dgkvs) st.daily_goals }
              (cnt + 1)
          | _ => .error "AttributeError"
        else migrateMetaEntries rest st cnt
      | _ => .error "AttributeError"

/-- The whole pipeline on a loaded document (lines 16-159, after
`json.load`): pop `__meta__` and `__legacy__`, run the user loop on the
remaining top-level entries, then the daily-goal loop on the metadata
section. A non-object top level raises at `data.pop`; a non-object
metadata value raises at `meta_data.items()`. Returns the final store, the
two counts, and the printed log. -/
def migrate_doc (data : JVal) (st : DB) : Except String (DB × Nat × Nat × List String) :=
  match data with
  | .obj kvs0 =>
    let meta_data := jget kvs0 "__meta__" (.obj [])
    let kvs1 := removeKey (removeKey kvs0 "__meta__") "__legacy__"
    match migrateGuildEntries kvs1 st 0 ["Migrating users..."] with
    | .error e => .error e
    | .ok (st1, user_count, log1) =>
      match meta_data with
      | .obj ms =>
        match migrateMetaEntries ms st1 0 with
        | .error e => .error e
        | .ok (st2, goal_count) =>
          .ok (st2, user_count, goal_count,
            log1 ++
              ["Migrated " ++ toString user_count ++ " user profiles.",
               "Migrating daily goals...",
               "Migrated " ++ toString goal_count ++ " daily goals.",
               "Migration complete."])
      | _ => .error "AttributeError"
  | _ => .error "AttributeError"

/-- `migrate_levels(json_path, db_path)` run against a store `st`:
if `os.path.exists` fails, print and return with the store untouched;
otherwise `open` + `json.load` (an unreadable or unparseable existing path
raises), then the pipeline. -/
def migrate_levels (fsExists : String → Bool) (fsRead : String → Option JVal)
    (json_path db_path : String) (st : DB) : Except String (DB × Nat × Nat × List String) :=
  if fsExists json_path then
    match fsRead json_path with
    | none => .error "json.load failed"
    | some data =>
      match migrate_doc data st with
      | .error e => .error e
      | .ok (st', uc, gc, log) =>
        .ok (st', uc, gc,
          ["Loading levels from " ++ json_path ++ "...",
           "Connecting to database " ++ db_path ++ "..."] ++ log)
  else
    .ok (st, 0, 0, ["Error: " ++ json_path ++ " not found."])

/-- The write sequence the user loop performs on one guild's records,
together with whether it raises: the store-independent plan of
`migrateUserEntries`. -/
def userPlan (guild_id : Int) :
    List (String × JVal) → Except String (List ((Int × Int) × UserRow))
  | [] => .ok []
  | (user_id_str, user_data) :: rest =>
    match parsePyInt user_id_str with
    | none => userPlan guild_id rest
    | some user_id =>
      match user_data with
      | .obj kvs =>
        match userPlan guild_id rest with
        | .ok ws => .ok (((user_id, guild_id), mkUserRow user_id guild_id kvs) :: ws)
        | .error e => .error e
      | _ => .error "AttributeError"

/-- The write sequence and skip messages of the whole progression loop:
the store-independent plan of `migrateGuildEntries`. -/
def guildPlan :
    List (String × JVal) → Except String (List ((Int × Int) × UserRow) × List String)
  | [] => .ok ([], [])
  | (guild_id_str, users) :: rest =>
    match parsePyInt guild_id_str with
    | none =>
      match guildPlan rest with
      | .ok (ws, msgs) => .ok (ws, ("Skipping invalid guild ID: " ++ guild_id_str) :: msgs)
      | .error e => .error e
    | some guild_id =>
      match users with
      | .obj ukvs =>
        match userPlan guild_id ukvs with
        | .ok ws1 =>
          match guildPlan rest with
          | .ok (ws2, msgs) => .ok (ws1 ++ ws2, msgs)
          | .error e => .error e
        | .error e => .error e
      | _ => guildPlan rest

/-- The write sequence of the metadata loop: the store-independent plan of
`migrateMetaEntries`. -/
def metaPlan : List (String × JVal) → Except String (List (Int × GoalRow))
  | [] => .ok []
  | (guild_id_str, guild_meta) :: rest =>
    match parsePyInt guild_id_str with
    | none => metaPlan rest
    | some guild_id =>
      match guild_meta with
      | .obj mkvs =>
        let daily_goal := jget mkvs "daily_goal" .null
        if daily_goal.truthy then
          match daily_goal with
          | .obj dgkvs =>
            match metaPlan rest with
            | .ok ws => .ok ((guild_id, mkGoalRow guild_id dgkvs) :: ws)
            | .error e => .error e
          | _ => .error "AttributeError"
        else metaPlan rest
      | _ => .error "AttributeError"

/-- The optional field keys of a user record, in source order. -/
def userFieldKeys : List String :=
  ["level", "total_xp", "xp_to_next_level", "total_commands_used", "total_messages",
   "last_daily", "daily_streak", "last_message_timestamp", "achievements", "best_rank",
   "previous_rank", "rank_improvement", "images_shared", "long_messages", "links_shared",
   "goals_completed", "boost_days", "first_boost_date", "xp_history"]

/-- The optional field keys of a `daily_goal` object, in source order. -/
def goalFieldKeys : List String :=
  ["date", "target", "progress", "claimers", "completed", "bonus_awarded_to"]

/-- Serialized text that denotes a JSON array (starts with a bracket). -/
def denotesArray (s : String) : Bool :=
  match s.data with
  | '[' :: _ => true
  | _ => false

/-! ### Store lemmas: `upsertBy`, `lookupBy`, `applyAllBy` -/

theorem lookupBy_upsertBy_self [DecidableEq κ] (k : κ) (v : α) (t : List (κ × α)) :
    lookupBy k (upsertBy k v t) = some v := by
  induction t with
  | nil => simp [upsertBy, lookupBy]
  | cons p rest ih =>
    obtain ⟨k', v'⟩ := p
    by_cases h : k' = k <;> simp [upsertBy, lookupBy, h, ih]

theorem lookupBy_upsertBy_ne [DecidableEq κ] {j k : κ} (h : j ≠ k) (v : α)
    (t : List (κ × α)) : lookupBy j (upsertBy k v t) = lookupBy j t := by
  induction t with
  | nil => simp [upsertBy, lookupBy, Ne.symm h]
  | cons p rest ih =>
    obtain ⟨k', v'⟩ := p
    by_cases hk : k' = k
    · subst hk
      simp [upsertBy, lookupBy, Ne.symm h]
    · simp [upsertBy, lookupBy, hk, ih]

theorem isSome_lookupBy_upsertBy [DecidableEq κ] (j k : κ) (v : α) (t : List (κ × α))
    (h : (lookupBy j t).isSome) : (lookupBy j (upsertBy k v t)).isSome := by
  by_cases hjk : j = k
  · subst hjk; rw [lookupBy_upsertBy_self]; rfl
  · rwa [lookupBy_upsertBy_ne hjk]

theorem upsertBy_upsertBy [DecidableEq κ] (k : κ) (v w : α) (t : List (κ × α)) :
    upsertBy k w (upsertBy k v t) = upsertBy k w t := by
  induction t with
  | nil => simp [upsertBy]
  | cons p rest ih =>
    obtain ⟨k', v'⟩ := p
    by_cases h : k' = k <;> simp [upsertBy, h, ih]

theorem upsertBy_self [DecidableEq κ] {k : κ} {v : α} {t : List (κ × α)}
    (h : lookupBy k t = some v) : upsertBy k v t = t := by
  induction t with
  | nil => simp [lookupBy] at h
  | cons p rest ih =>
    obtain ⟨k', v'⟩ := p
    by_cases hk : k' = k
    · subst hk
      simp only [lookupBy, if_true, eq_self_iff_true, Option.some.injEq] at h
      simp [upsertBy, h]
    · simp only [lookupBy, if_neg hk] at h
      simp [upsertBy, hk, ih h]

theorem upsertBy_comm [DecidableEq κ] {k1 k2 : κ} (h : k1 ≠ k2) (v1 v2 : α)
    (t : List (κ × α)) (hk2 : (lookupBy k2 t).isSome) :
    upsertBy k1 v1 (upsertBy k2 v2 t) = upsertBy k2 v2 (upsertBy k1 v1 t) := by
  induction t with
  | nil => simp [lookupBy] at hk2
  | cons p rest ih =>
    obtain ⟨k', v'⟩ := p
    by_cases h2 : k' = k2
    · subst h2
      simp [upsertBy, h, Ne.symm h]
    · by_cases h1 : k' = k1
      · subst h1
        simp [upsertBy, h, h2]
      · simp only [lookupBy, if_neg h2] at hk2
        simp [upsertBy, h1, h2, ih hk2]

theorem applyAllBy_cons [DecidableEq κ] (k : κ) (v : α) (ws t : List (κ × α)) :
    applyAllBy ((k, v) :: ws) t = applyAllBy ws (upsertBy k v t) := rfl

theorem applyAllBy_append [DecidableEq κ] (a b t : List (κ × α)) :
    applyAllBy (a ++ b) t = applyAllBy b (applyAllBy a t) := by
  simp [applyAllBy, List.foldl_append]

theorem lookupBy_applyAllBy [DecidableEq κ] (k : κ) (ws : List (κ × α)) :
    ∀ t, lookupBy k (applyAllBy ws t) = (lastVal k ws).or (lookupBy k t) := by
  induction ws with
  | nil => intro t; simp [applyAllBy, lastVal, Option.or]
  | cons p ws ih =>
    intro t
    obtain ⟨k1, v1⟩ := p
    rw [applyAllBy_cons, ih]
    simp only [lastVal]
    cases hl : lastVal k ws with
    | some w => simp [Option.or]
    | none =>
      by_cases hk : k1 = k
      · subst hk; simp [Option.or, lookupBy_upsertBy_self]
      · simp [Option.or, hk, lookupBy_upsertBy_ne (Ne.symm hk)]

theorem isSome_lookupBy_applyAllBy [DecidableEq κ] (k : κ) (ws t : List (κ × α))
    (h : (lookupBy k t).isSome) : (lookupBy k (applyAllBy ws t)).isSome := by
  rw [lookupBy_applyAllBy]
  cases hl : lastVal k ws with
  | some w => simp [Option.or]
  | none => simpa [Option.or]

theorem applyAllBy_upsertBy_overwritten [DecidableEq κ] {k : κ} {w : α}
    (ws : List (κ × α)) :
    ∀ (x : List (κ × α)) (v : α), (lookupBy k x).isSome → lastVal k ws = some w →
      applyAllBy ws (upsertBy k v x) = applyAllBy ws x := by
  induction ws with
  | nil => intro x v _ hlast; simp [lastVal] at hlast
  | cons p ws ih =>
    intro x v hx hlast
    obtain ⟨k1, v1⟩ := p
    by_cases hk : k1 = k
    · subst hk
      rw [applyAllBy_cons, applyAllBy_cons]
      simp only [upsertBy_upsertBy]
    · have hlast' : lastVal k ws = some w := by
        simp only [lastVal] at hlast
        cases hl : lastVal k ws with
        | some w' => rw [hl] at hlast; exact hlast
        | none => rw [hl, if_neg hk] at hlast; exact absurd hlast (by simp)
      rw [applyAllBy_cons, applyAllBy_cons]
      rw [upsertBy_comm hk v1 v x hx]
      exact ih (upsertBy k1 v1 x) v (isSome_lookupBy_upsertBy k k1 v1 x hx) hlast'

theorem applyAllBy_idem [DecidableEq κ] (ws : List (κ × α)) :
    ∀ t, applyAllBy ws (applyAllBy ws t) = applyAllBy ws t := by
  induction ws with
  | nil => intro t; rfl
  | cons p ws ih =>
    intro t
    obtain ⟨k, v⟩ := p
    rw [applyAllBy_cons, applyAllBy_cons]
    cases hl : lastVal k ws with
    | none =>
      have hlook : lookupBy k (applyAllBy ws (upsertBy k v t)) = some v := by
        rw [lookupBy_applyAllBy, hl, lookupBy_upsertBy_self]; rfl
      rw [upsertBy_self hlook, ih]
    | some w =>
      have hx : (lookupBy k (applyAllBy ws (upsertBy k v t))).isSome := by
        exact isSome_lookupBy_applyAllBy k ws _ (by rw [lookupBy_upsertBy_self]; rfl)
      rw [applyAllBy_upsertBy_overwritten ws _ v hx hl, ih]

/-! ### Factorization: each loop equals its store-independent write plan -/

theorem migrateUserEntries_plan (guild_id : Int) (entries : List (String × JVal)) :
    ∀ (st : DB) (cnt : Nat),
      migrateUserEntries guild_id entries st cnt =
        match userPlan guild_id entries with
        | .ok ws =>
          .ok ({ st with user_profiles := applyAllBy ws st.user_profiles }, cnt + ws.length)
        | .error e => .error e := by
  induction entries with
  | nil => intro st cnt; rfl
  | cons p rest ih =>
    intro st cnt
    obtain ⟨u, d⟩ := p
    simp only [migrateUserEntries, userPlan]
    cases hp : parsePyInt u with
    | none => exact ih st cnt
    | some uid =>
      cases d with
      | obj kvs =>
        dsimp only
        rw [ih]
        cases hup : userPlan guild_id rest with
        | ok ws =>
          have hn : cnt + 1 + ws.length = cnt + (ws.length + 1) := by omega
          dsimp only
          rw [hn, applyAllBy_cons]
          rfl
        | error e => rfl
      | null => rfl
      | bool b => rfl
      | int n => rfl
      | str s => rfl
      | arr xs => rfl

theorem migrateGuildEntries_plan (entries : List (String × JVal)) :
    ∀ (st : DB) (cnt : Nat) (log : List String),
      migrateGuildEntries entries st cnt log =
        match guildPlan entries with
        | .ok (ws, msgs) =>
          .ok ({ st with user_profiles := applyAllBy ws st.user_profiles },
               cnt + ws.length, log ++ msgs)
        | .error e => .error e := by
  induction entries with
  | nil => intro st cnt log; simp [migrateGuildEntries, guildPlan]; rfl
  | cons p rest ih =>
    intro st cnt log
    obtain ⟨g, users⟩ := p
    simp only [migrateGuildEntries, guildPlan]
    cases hp : parsePyInt g with
    | none =>
      dsimp only
      rw [ih]
      cases hgp : guildPlan rest with
      | ok r =>
        obtain ⟨ws, msgs⟩ := r
        dsimp only
        rw [List.append_cons, List.append_assoc]
        simp
      | error e => rfl
    | some guild_id =>
      cases users with
      | obj ukvs =>
        dsimp only
        rw [migrateUserEntries_plan]
        cases hup : userPlan guild_id ukvs with
        | ok ws1 =>
          dsimp only
          rw [ih]
          cases hgp : guildPlan rest with
          | ok r =>
            obtain ⟨ws2, msgs⟩ := r
            have hn : cnt + ws1.length + ws2.length = cnt + (ws1 ++ ws2).length := by
              rw [List.length_append]; omega
            dsimp only
            rw [applyAllBy_append, hn]
          | error e => rfl
        | error e => rfl
      | null => exact ih st cnt log
      | bool b => exact ih st cnt log
      | int n => exact ih st cnt log
      | str s => exact ih st cnt log
      | arr xs => exact ih st cnt log

theorem migrateMetaEntries_plan (entries : List (String × JVal)) :
    ∀ (st : DB) (cnt : Nat),
      migrateMetaEntries entries st cnt =
        match metaPlan entries with
        | .ok ws =>
          .ok ({ st with daily_goals := applyAllBy ws st.daily_goals }, cnt + ws.length)
        | .error e => .error e := by
  induction entries with
  | nil => intro st cnt; rfl
  | cons p rest ih =>
    intro st cnt
    obtain ⟨g, gm⟩ := p
    simp only [migrateMetaEntries, metaPlan]
    cases hp : parsePyInt g with
    | none => exact ih st cnt
    | some guild_id =>
      cases gm with
      | obj mkvs =>
        dsimp only
        by_cases ht : (jget mkvs "daily_goal" JVal.null).truthy
        · simp only [ht, if_true]
          cases hdg : jget mkvs "daily_goal" JVal.null with
          | obj dgkvs =>
            dsimp only
            rw [ih]
            cases hmp : metaPlan rest with
            | ok ws =>
              have hn : cnt + 1 + ws.length = cnt + (ws.length + 1) := by omega
              dsimp only
              rw [hn, applyAllBy_cons]
              rfl
            | error e => rfl
          | null => rfl
          | bool b => rfl
          | int n => rfl
          | str s => rfl
          | arr xs => rfl
        · simp only [ht, if_false]
          exact ih st cnt
      | null => rfl
      | bool b => rfl
      | int n => rfl
      | str s => rfl
      | arr xs => rfl

/-! ### Field-access helpers -/

theorem jget_of_isNone {kvs : List (String × JVal)} {k : String}
    (h : (jlook kvs k).isNone) (d : JVal) : jget kvs k d = d := by
  induction kvs with
  | nil => rfl
  | cons p rest ih =>
    obtain ⟨k', v⟩ := p
    by_cases hk : k' = k
    · simp [jlook, hk] at h
    · simp only [jlook, if_neg hk] at h
      simp [jget, hk, ih h]

theorem jget_of_jlook_some {kvs : List (String × JVal)} {k : String} {v : JVal}
    (h : jlook kvs k = some v) (d : JVal) : jget kvs k d = v := by
  induction kvs with
  | nil => simp [jlook] at h
  | cons p rest ih =>
    obtain ⟨k', v'⟩ := p
    by_cases hk : k' = k
    · simp only [jlook, if_pos hk] at h
      simp only [jget, if_pos hk]
      exact Option.some.inj h
    · simp only [jlook, if_neg hk] at h
      simp [jget, hk, ih h]

theorem denotesArray_jdump_arr (xs : List JVal) :
    denotesArray (jdump (JVal.arr xs)) = true := by
  show denotesArray ("[" ++ jdumpElems xs ++ "]") = true
  have h : ("[" ++ jdumpElems xs ++ "]").data = '[' :: (jdumpElems xs ++ "]").data := by
    simp [String.data_append]
  simp [denotesArray, h]

/-- Doc-level idempotence: a second run of the pipeline over the store the
first run produced from an empty store returns exactly the first run's
result. -/
theorem migrate_doc_idem (data : JVal) (st1 : DB) (uc gc : Nat) (log : List String)
    (h : migrate_doc data emptyDB = .ok (st1, uc, gc, log)) :
    migrate_doc data st1 = .ok (st1, uc, gc, log) := by
  cases data with
  | obj kvs0 =>
    simp only [migrate_doc] at h ⊢
    rw [migrateGuildEntries_plan] at h ⊢
    cases hgp : guildPlan (removeKey (removeKey kvs0 "__meta__") "__legacy__") with
    | error e => rw [hgp] at h; simp at h
    | ok r =>
      obtain ⟨ws, msgs⟩ := r
      rw [hgp] at h
      dsimp only at h ⊢
      cases hmeta : jget kvs0 "__meta__" (JVal.obj []) with
      | obj ms =>
        rw [hmeta] at h
        dsimp only at h ⊢
        rw [migrateMetaEntries_plan] at h ⊢
        cases hmp : metaPlan ms with
        | error e => rw [hmp] at h; simp at h
        | ok gws =>
          rw [hmp] at h
          dsimp only at h ⊢
          simp only [Except.ok.injEq, Prod.mk.injEq] at h
          obtain ⟨h1, h2, h3, h4⟩ := h
          subst h2 h3 h4
          rw [← h1]
          dsimp only
          rw [applyAllBy_idem, applyAllBy_idem]
      | null => rw [hmeta] at h; simp at h
      | bool b => rw [hmeta] at h; simp at h
      | int n => rw [hmeta] at h; simp at h
      | str s => rw [hmeta] at h; simp at h
      | arr xs => rw [hmeta] at h; simp at h
  | null => simp [migrate_doc] at h
  | bool b => simp [migrate_doc] at h
  | int n => simp [migrate_doc] at h
  | str s => simp [migrate_doc] at h
  | arr xs => simp [migrate_doc] at h

/-! ### Claims -/

/-- Claim C2: a user record that is missing every optional field maps to a
`user_profiles` row carrying exactly the documented defaults: level 1,
total_xp 0, xp_to_next_level 100, best_rank 999, previous_rank 999,
rank_improvement 0, every other counter 0, the nullable text columns null,
and the list-valued columns the serialized empty array. -/
theorem claim_C2_user_defaults (u : String) (uid guild_id : Int)
    (kvs : List (String × JVal)) (st : DB) (cnt : Nat)
    (hu : parsePyInt u = some uid)
    (habs : ∀ k ∈ userFieldKeys, (jlook kvs k).isNone) :
    migrateUserEntries guild_id [(u, .obj kvs)] st cnt =
      .ok ({ st with
              user_profiles := upsertBy (uid, guild_id) (defaultUserRow uid guild_id) st.user_profiles },
           cnt + 1) := by
  have hrow : mkUserRow uid guild_id kvs = defaultUserRow uid guild_id := by
    unfold mkUserRow defaultUserRow
    rw [jget_of_isNone (habs "level" (by simp [userFieldKeys])),
        jget_of_isNone (habs "total_xp" (by simp [userFieldKeys])),
        jget_of_isNone (habs "xp_to_next_level" (by simp [userFieldKeys])),
        jget_of_isNone (habs "total_commands_used" (by simp [userFieldKeys])),
        jget_of_isNone (habs "total_messages" (by simp [userFieldKeys])),
        jget_of_isNone (habs "last_daily" (by simp [userFieldKeys])),
        jget_of_isNone (habs "daily_streak" (by simp [userFieldKeys])),
        jget_of_isNone (habs "last_message_timestamp" (by simp [userFieldKeys])),
        jget_of_isNone (habs "achievements" (by simp [userFieldKeys])),
        jget_of_isNone (habs "best_rank" (by simp [userFieldKeys])),
        jget_of_isNone (habs "previous_rank" (by simp [userFieldKeys])),
        jget_of_isNone (habs "rank_improvement" (by simp [userFieldKeys])),
        jget_of_isNone (habs "images_shared" (by simp [userFieldKeys])),
        jget_of_isNone (habs "long_messages" (by simp [userFieldKeys])),
        jget_of_isNone (habs "links_shared" (by simp [userFieldKeys])),
        jget_of_isNone (habs "goals_completed" (by simp [userFieldKeys])),
        jget_of_isNone (habs "boost_days" (by simp [userFieldKeys])),
        jget_of_isNone (habs "first_boost_date" (by simp [userFieldKeys])),
        jget_of_isNone (habs "xp_history" (by simp [userFieldKeys]))]
    rfl
  simp only [migrateUserEntries, hu, hrow]

/-- Witness for C2 at a concrete record with no fields at all. -/
theorem claim_C2_user_defaults_witness :
    migrateUserEntries 10 [("1", JVal.obj [])] emptyDB 0 =
      .ok ({ emptyDB with
              user_profiles := upsertBy (1, 10) (defaultUserRow 1 10) emptyDB.user_profiles },
           0 + 1) :=
  claim_C2_user_defaults "1" 1 10 [] emptyDB 0 (by decide) (fun _ _ => rfl)

/-- Claim C3: a non-integer guild key is skipped (with a printed message)
and a non-integer user key is skipped silently; in both cases no row is
written for that key, no exception is raised by the skip, and the
remaining sibling entries are processed from an unchanged state. -/
theorem claim_C3_partial_failure (g u : String) (users d : JVal)
    (grest urest : List (String × JVal)) (gid : Int) (st1 st2 : DB)
    (cnt1 cnt2 : Nat) (log : List String)
    (hg : parsePyInt g = none) (hu : parsePyInt u = none) :
    migrateGuildEntries ((g, users) :: grest) st1 cnt1 log =
      migrateGuildEntries grest st1 cnt1 (log ++ ["Skipping invalid guild ID: " ++ g]) ∧
    migrateUserEntries gid ((u, d) :: urest) st2 cnt2 =
      migrateUserEntries gid urest st2 cnt2 := by
  constructor
  · simp only [migrateGuildEntries, hg]
  · simp only [migrateUserEntries, hu]

/-- Witness for C3 at the spec's concrete bad keys. -/
theorem claim_C3_partial_failure_witness :
    migrateGuildEntries [("abc", JVal.obj [])] emptyDB 0 [] =
      migrateGuildEntries [] emptyDB 0 ([] ++ ["Skipping invalid guild ID: " ++ "abc"]) ∧
    migrateUserEntries 10 [("xyz", JVal.null)] emptyDB 0 =
      migrateUserEntries 10 [] emptyDB 0 :=
  claim_C3_partial_failure "abc" "xyz" (JVal.obj []) JVal.null [] [] 10 emptyDB emptyDB
    0 0 [] (by decide) (by decide)

/-- Claim C4: when the key is already present in `user_profiles`, processing
a record for that key upserts a row built from the new record alone — the
existing row is replaced in full, no column of it survives, and an optional
field absent from the new record comes back as its documented default. -/
theorem claim_C4_replace_not_merge (u : String) (uid guild_id : Int)
    (kvs : List (String × JVal)) (st : DB) (cnt : Nat) (old : UserRow)
    (hu : parsePyInt u = some uid)
    (_hold : lookupBy (uid, guild_id) st.user_profiles = some old) :
    migrateUserEntries guild_id [(u, .obj kvs)] st cnt =
      .ok ({ st with user_profiles :=
              upsertBy (uid, guild_id) (mkUserRow uid guild_id kvs) st.user_profiles },
           cnt + 1) ∧
    lookupBy (uid, guild_id)
        (upsertBy (uid, guild_id) (mkUserRow uid guild_id kvs) st.user_profiles) =
      some (mkUserRow uid guild_id kvs) ∧
    ((jlook kvs "total_xp").isNone → (mkUserRow uid guild_id kvs).total_xp = .int 0) := by
  refine ⟨?_, lookupBy_upsertBy_self _ _ _, ?_⟩
  · simp only [migrateUserEntries, hu]
  · intro h
    show jget kvs "total_xp" (.int 0) = .int 0
    exact jget_of_isNone h _

/-- A store already holding an enriched row (total_xp present) for the
composite key (1, 10). -/
def enrichedStore : DB := ⟨[((1, 10), mkUserRow 1 10 [("total_xp", JVal.int 1200)])], []⟩

/-- Witness for C4: the enriched row for key (1, 10) is re-encountered with
a record lacking total_xp. -/
theorem claim_C4_replace_not_merge_witness :
    migrateUserEntries 10 [("1", JVal.obj [])] enrichedStore 0 =
      .ok ({ enrichedStore with user_profiles := upsertBy (1, 10) (mkUserRow 1 10 []) enrichedStore.user_profiles }, 0 + 1) ∧
    lookupBy (1, 10) (upsertBy (1, 10) (mkUserRow 1 10 []) enrichedStore.user_profiles) =
      some (mkUserRow 1 10 []) ∧
    ((jlook [] "total_xp").isNone → (mkUserRow 1 10 []).total_xp = .int 0) :=
  claim_C4_replace_not_merge "1" 1 10 [] enrichedStore 0
    (mkUserRow 1 10 [("total_xp", JVal.int 1200)]) (by decide) rfl

/-- Claim C5 counterexample: a path that exists (so `os.path.exists`
passes) but is not a readable/parseable file makes the run raise at
`open`/`json.load` instead of returning normally. -/
theorem claim_C5_counterexample :
    migrate_levels (fun _ => true) (fun _ => none) "levels.json" "data/leveling.db" emptyDB =
      .error "json.load failed" := rfl

/-- Claim C5 as amended: when the input path does not exist, the run
returns normally with the store untouched, zero counts, and only the
diagnostic message printed. -/
theorem claim_C5_missing_file (fsExists : String → Bool) (fsRead : String → Option JVal)
    (json_path db_path : String) (st : DB)
    (h : fsExists json_path = false) :
    migrate_levels fsExists fsRead json_path db_path st =
      .ok (st, 0, 0, ["Error: " ++ json_path ++ " not found."]) := by
  simp [migrate_levels, h]

/-- Witness for the amended C5 at a concrete absent path. -/
theorem claim_C5_missing_file_witness :
    migrate_levels (fun _ => false) (fun _ => none) "levels.json" "data/leveling.db" emptyDB =
      .ok (emptyDB, 0, 0, ["Error: " ++ "levels.json" ++ " not found."]) :=
  claim_C5_missing_file (fun _ => false) (fun _ => none) "levels.json" "data/leveling.db"
    emptyDB rfl

/-- Claim C10: a top-level progression entry whose key parses as an integer
but whose value is not a mapping is skipped silently: no row is written,
the count and the log are unchanged, and no exception is raised — the loop
simply continues with the remaining entries. -/
theorem claim_C10_nondict_guild (g : String) (gid : Int) (users : JVal)
    (rest : List (String × JVal)) (st : DB) (cnt : Nat) (log : List String)
    (hg : parsePyInt g = some gid) (hobj : users.isObj = false) :
    migrateGuildEntries ((g, users) :: rest) st cnt log =
      migrateGuildEntries rest st cnt log := by
  cases users with
  | obj kvs => simp [JVal.isObj] at hobj
  | null => simp only [migrateGuildEntries, hg]
  | bool b => simp only [migrateGuildEntries, hg]
  | int n => simp only [migrateGuildEntries, hg]
  | str s => simp only [migrateGuildEntries, hg]
  | arr xs => simp only [migrateGuildEntries, hg]

/-- Witness for C10 at a list-valued guild entry. -/
theorem claim_C10_nondict_guild_witness :
    migrateGuildEntries [("10", JVal.arr [])] emptyDB 0 [] =
      migrateGuildEntries [] emptyDB 0 [] :=
  claim_C10_nondict_guild "10" 10 (JVal.arr []) [] emptyDB 0 [] (by decide) rfl

/-- Claim C6 counterexample: a guild whose `daily_goal` is truthy but not a
mapping (here the integer 5) makes the metadata loop raise at `.get`
instead of upserting a row. -/
theorem claim_C6_counterexample :
    migrateMetaEntries [("10", JVal.obj [("daily_goal", JVal.int 5)])] emptyDB 0 =
      .error "AttributeError" := rfl

/-- Claim C6 as amended: for a metadata guild entry with integer-parseable
key whose value is a mapping — if `daily_goal` is absent or falsy, no row
is written and the count is unchanged; if `daily_goal` is a truthy mapping,
the mapped row is upserted by guild id and the count incremented; when all
fields of the `daily_goal` mapping are absent the mapped row is exactly
date "", target 0, progress 0, completed false, and both lists serialized
as the empty array; the upsert has full-replace semantics. (A truthy
non-mapping `daily_goal` instead aborts the run — see the
counterexample.) -/
theorem claim_C6_daily_goal_mapping (g : String) (gid : Int)
    (mkvs dgkvs : List (String × JVal)) (rest : List (String × JVal))
    (st : DB) (cnt : Nat) (r : GoalRow) (t : List (Int × GoalRow))
    (hg : parsePyInt g = some gid) :
    ((jget mkvs "daily_goal" JVal.null).truthy = false →
      migrateMetaEntries ((g, .obj mkvs) :: rest) st cnt = migrateMetaEntries rest st cnt) ∧
    (jget mkvs "daily_goal" JVal.null = .obj dgkvs → (JVal.obj dgkvs).truthy = true →
      migrateMetaEntries ((g, .obj mkvs) :: rest) st cnt =
        migrateMetaEntries rest
          { st with
              daily_goals := upsertBy gid (mkGoalRow gid dgkvs) st.daily_goals }
          (cnt + 1)) ∧
    ((∀ k ∈ goalFieldKeys, (jlook dgkvs k).isNone) →
      mkGoalRow gid dgkvs = defaultGoalRow gid) ∧
    lookupBy gid (upsertBy gid r t) = some r := by
  refine ⟨?_, ?_, ?_, lookupBy_upsertBy_self _ _ _⟩
  · intro hf
    simp [migrateMetaEntries, hg, hf]
  · intro hdg htr
    simp [migrateMetaEntries, hg, hdg, htr]
  · intro habs
    unfold mkGoalRow defaultGoalRow
    rw [jget_of_isNone (habs "date" (by simp [goalFieldKeys])),
        jget_of_isNone (habs "target" (by simp [goalFieldKeys])),
        jget_of_isNone (habs "progress" (by simp [goalFieldKeys])),
        jget_of_isNone (habs "claimers" (by simp [goalFieldKeys])),
        jget_of_isNone (habs "completed" (by simp [goalFieldKeys])),
        jget_of_isNone (habs "bonus_awarded_to" (by simp [goalFieldKeys]))]
    rfl

/-- Witness for the amended C6 at concrete metadata entries. -/
theorem claim_C6_daily_goal_mapping_witness :
    (migrateMetaEntries [("10", JVal.obj [])] emptyDB 0 = migrateMetaEntries [] emptyDB 0) ∧
    (migrateMetaEntries [("10", JVal.obj [("daily_goal", JVal.obj [("target", JVal.int 500)])])] emptyDB 0 =
      migrateMetaEntries []
        { emptyDB with
            daily_goals := upsertBy 10 (mkGoalRow 10 [("target", JVal.int 500)]) emptyDB.daily_goals }
        (0 + 1)) ∧
    (mkGoalRow 10 [] = defaultGoalRow 10) ∧
    (lookupBy 10 (upsertBy 10 (defaultGoalRow 10) []) = some (defaultGoalRow 10)) :=
  ⟨(claim_C6_daily_goal_mapping "10" 10 [] [] [] emptyDB 0 (defaultGoalRow 10) [] (by decide)).1 rfl,
   (claim_C6_daily_goal_mapping "10" 10 [("daily_goal", JVal.obj [("target", JVal.int 500)])]
      [("target", JVal.int 500)] [] emptyDB 0 (defaultGoalRow 10) [] (by decide)).2.1 rfl rfl,
   (claim_C6_daily_goal_mapping "10" 10 [] [] [] emptyDB 0 (defaultGoalRow 10) [] (by decide)).2.2.1
      (fun _ _ => rfl),
   (claim_C6_daily_goal_mapping "10" 10 [] [] [] emptyDB 0 (defaultGoalRow 10) [] (by decide)).2.2.2⟩

/-- Claim C7 counterexample: a present-but-null `achievements` value is
serialized as the text null, which does not denote an array. -/
theorem claim_C7_counterexample :
    (mkUserRow 1 10 [("achievements", JVal.null)]).achievements = "null" ∧
    denotesArray "null" = false := ⟨rfl, rfl⟩

/-- Claim C7 as amended: each list-valued column stores `json.dumps` of the
source value when present and of the empty list when absent; the stored
text denotes an array whenever the source value is absent or is itself a
list. (A present non-list value, e.g. null, yields its own serialization,
which is not array text — see the counterexample.) -/
theorem claim_C7_list_columns (uid gid gid2 : Int)
    (kvs dgkvs : List (String × JVal)) :
    ((jlook kvs "achievements").isNone → (mkUserRow uid gid kvs).achievements = "[]") ∧
    (∀ xs, jlook kvs "achievements" = some (.arr xs) →
      denotesArray (mkUserRow uid gid kvs).achievements = true) ∧
    ((jlook kvs "xp_history").isNone → (mkUserRow uid gid kvs).xp_history = "[]") ∧
    (∀ xs, jlook kvs "xp_history" = some (.arr xs) →
      denotesArray (mkUserRow uid gid kvs).xp_history = true) ∧
    ((jlook dgkvs "claimers").isNone → (mkGoalRow gid2 dgkvs).claimers = "[]") ∧
    (∀ xs, jlook dgkvs "claimers" = some (.arr xs) →
      denotesArray (mkGoalRow gid2 dgkvs).claimers = true) ∧
    ((jlook dgkvs "bonus_awarded_to").isNone →
      (mkGoalRow gid2 dgkvs).bonus_awarded_to = "[]") ∧
    (∀ xs, jlook dgkvs "bonus_awarded_to" = some (.arr xs) →
      denotesArray (mkGoalRow gid2 dgkvs).bonus_awarded_to = true) := by
  refine ⟨?_, ?_, ?_, ?_, ?_, ?_, ?_, ?_⟩
  · intro h
    show jdump (jget kvs "achievements" (.arr [])) = "[]"
    rw [jget_of_isNone h]
    rfl
  · intro xs h
    show denotesArray (jdump (jget kvs "achievements" (.arr []))) = true
    rw [jget_of_jlook_some h]
    exact denotesArray_jdump_arr xs
  · intro h
    show jdump (jget kvs "xp_history" (.arr [])) = "[]"
    rw [jget_of_isNone h]
    rfl
  · intro xs h
    show denotesArray (jdump (jget kvs "xp_history" (.arr []))) = true
    rw [jget_of_jlook_some h]
    exact denotesArray_jdump_arr xs
  · intro h
    show jdump (jget dgkvs "claimers" (.arr [])) = "[]"
    rw [jget_of_isNone h]
    rfl
  · intro xs h
    show denotesArray (jdump (jget dgkvs "claimers" (.arr []))) = true
    rw [jget_of_jlook_some h]
    exact denotesArray_jdump_arr xs
  · intro h
    show jdump (jget dgkvs "bonus_awarded_to" (.arr [])) = "[]"
    rw [jget_of_isNone h]
    rfl
  · intro xs h
    show denotesArray (jdump (jget dgkvs "bonus_awarded_to" (.arr []))) = true
    rw [jget_of_jlook_some h]
    exact denotesArray_jdump_arr xs

/-- Witness for the amended C7 at concrete records. -/
theorem claim_C7_list_columns_witness :
    ((mkUserRow 1 10 []).achievements = "[]") ∧
    (denotesArray (mkUserRow 1 10 [("achievements", JVal.arr [JVal.str "a"])]).achievements = true) ∧
    ((mkUserRow 1 10 []).xp_history = "[]") ∧
    (denotesArray (mkUserRow 1 10 [("xp_history", JVal.arr [])]).xp_history = true) ∧
    ((mkGoalRow 20 []).claimers = "[]") ∧
    (denotesArray (mkGoalRow 20 [("claimers", JVal.arr [JVal.str "1"])]).claimers = true) ∧
    ((mkGoalRow 20 []).bonus_awarded_to = "[]") ∧
    (denotesArray (mkGoalRow 20 [("bonus_awarded_to", JVal.arr [])]).bonus_awarded_to = true) :=
  ⟨(claim_C7_list_columns 1 10 20 [] []).1 rfl,
   (claim_C7_list_columns 1 10 20 [("achievements", JVal.arr [JVal.str "a"])] []).2.1
      [JVal.str "a"] rfl,
   (claim_C7_list_columns 1 10 20 [] []).2.2.1 rfl,
   (claim_C7_list_columns 1 10 20 [("xp_history", JVal.arr [])] []).2.2.2.1 [] rfl,
   (claim_C7_list_columns 1 10 20 [] []).2.2.2.2.1 rfl,
   (claim_C7_list_columns 1 10 20 [] [("claimers", JVal.arr [JVal.str "1"])]).2.2.2.2.2.1
      [JVal.str "1"] rfl,
   (claim_C7_list_columns 1 10 20 [] []).2.2.2.2.2.2.1 rfl,
   (claim_C7_list_columns 1 10 20 [] [("bonus_awarded_to", JVal.arr [])]).2.2.2.2.2.2.2
      [] rfl⟩

/-- Condition under which a run's metadata section never writes guild
`gid`: every entry whose key parses to `gid` is a mapping with an absent or
falsy `daily_goal`. -/
def goalFrameSafe (gid : Int) (p : String × JVal) : Bool :=
  match parsePyInt p.1 with
  | none => true
  | some g =>
    if g = gid then
      match p.2 with
      | .obj m => !(jget m "daily_goal" JVal.null).truthy
      | _ => false
    else true

/-- Claim C8: a guild that does not appear in the current metadata section
(or appears only without a truthy daily_goal) keeps any pre-existing
`daily_goals` row unchanged by a completed run — the loop never deletes or
modifies rows it does not upsert. -/
theorem claim_C8_goal_frame (gid : Int) (entries : List (String × JVal)) :
    ∀ (st : DB) (cnt : Nat) (st' : DB) (cnt' : Nat),
      entries.all (goalFrameSafe gid) = true →
      migrateMetaEntries entries st cnt = .ok (st', cnt') →
      lookupBy gid st'.daily_goals = lookupBy gid st.daily_goals := by
  induction entries with
  | nil =>
    intro st cnt st' cnt' _ h2
    simp only [migrateMetaEntries, Except.ok.injEq, Prod.mk.injEq] at h2
    obtain ⟨h3, _⟩ := h2
    rw [← h3]
  | cons p rest ih =>
    intro st cnt st' cnt' hall h2
    obtain ⟨k, v⟩ := p
    rw [List.all_cons] at hall
    obtain ⟨hsafe, hrest⟩ := (Bool.and_eq_true _ _).mp hall
    simp only [migrateMetaEntries] at h2
    cases hp : parsePyInt k with
    | none =>
      rw [hp] at h2
      dsimp only at h2
      exact ih st cnt st' cnt' hrest h2
    | some g =>
      rw [hp] at h2
      dsimp only at h2
      cases v with
      | obj m =>
        dsimp only at h2
        by_cases ht : (jget m "daily_goal" JVal.null).truthy = true
        · have hne : g ≠ gid := by
            intro hEq
            unfold goalFrameSafe at hsafe
            rw [hp] at hsafe
            dsimp only at hsafe
            rw [if_pos hEq] at hsafe
            rw [ht] at hsafe
            simp at hsafe
          rw [if_pos ht] at h2
          cases hdg : jget m "daily_goal" JVal.null with
          | obj dgkvs =>
            rw [hdg] at h2
            dsimp only at h2
            have hstep := ih _ _ _ _ hrest h2
            rw [hstep]
            dsimp only
            rw [lookupBy_upsertBy_ne (Ne.symm hne)]
          | null => rw [hdg] at h2; simp at h2
          | bool b => rw [hdg] at h2; simp at h2
          | int n => rw [hdg] at h2; simp at h2
          | str s => rw [hdg] at h2; simp at h2
          | arr xs => rw [hdg] at h2; simp at h2
        · rw [if_neg ht] at h2
          exact ih st cnt st' cnt' hrest h2
      | null => simp at h2
      | bool b => simp at h2
      | int n => simp at h2
      | str s => simp at h2
      | arr xs => simp at h2

/-- A store holding a daily-goal row for guild 10. -/
def goalStore : DB := ⟨[], [(10, defaultGoalRow 10)]⟩

/-- Witness for C8: a run whose metadata section mentions only guild 11
leaves guild 10's pre-existing row exactly as it was. -/
theorem claim_C8_goal_frame_witness :
    lookupBy 10 (DB.daily_goals
        ⟨[], [(10, defaultGoalRow 10), (11, mkGoalRow 11 [("target", JVal.int 5)])]⟩) =
      lookupBy 10 goalStore.daily_goals :=
  claim_C8_goal_frame 10 [("11", JVal.obj [("daily_goal", JVal.obj [("target", JVal.int 5)])])]
    goalStore 0 ⟨[], [(10, defaultGoalRow 10), (11, mkGoalRow 11 [("target", JVal.int 5)])]⟩ 1
    (by decide) rfl

/-- Claim C9: when the progression loop completes, the tallied user count
equals the number of rows the run wrote (the length of its write
sequence); skipped guild and user keys contribute only skip messages,
never counts or rows. -/
theorem claim_C9_count (entries : List (String × JVal)) (ws : List ((Int × Int) × UserRow))
    (msgs : List String) (st : DB) (cnt : Nat) (log : List String)
    (h : guildPlan entries = .ok (ws, msgs)) :
    migrateGuildEntries entries st cnt log =
      .ok ({ st with
              user_profiles := applyAllBy ws st.user_profiles },
           cnt + ws.length, log ++ msgs) := by
  rw [migrateGuildEntries_plan, h]

/-- Witness for C9: guild key abc is skipped, guild 10 contributes its one
valid user, the bad user key zz contributes nothing; the count is the
length of the single-row write sequence. -/
theorem claim_C9_count_witness :
    migrateGuildEntries
        [("abc", JVal.null), ("10", JVal.obj [("1", JVal.obj []), ("zz", JVal.null)])]
        emptyDB 0 [] =
      .ok ({ emptyDB with
              user_profiles := applyAllBy [((1, 10), mkUserRow 1 10 [])] emptyDB.user_profiles },
           0 + List.length [((1, 10), mkUserRow 1 10 [])],
           [] ++ ["Skipping invalid guild ID: " ++ "abc"]) :=
  claim_C9_count [("abc", JVal.null), ("10", JVal.obj [("1", JVal.obj []), ("zz", JVal.null)])]
    [((1, 10), mkUserRow 1 10 [])] ["Skipping invalid guild ID: " ++ "abc"] emptyDB 0 [] rfl

/-- Claim C1: running the full pipeline twice in sequence against an
initially empty store yields exactly the state of running it once: the
second run returns the same store (byte-identical rows), the same counts,
and the same log. A well-formed document is one the pipeline processes to
completion, i.e. the first run returns normally. -/
theorem claim_C1_idempotence (fsExists : String → Bool) (fsRead : String → Option JVal)
    (json_path db_path : String) (st1 : DB) (uc gc : Nat) (log : List String)
    (h : migrate_levels fsExists fsRead json_path db_path emptyDB = .ok (st1, uc, gc, log)) :
    migrate_levels fsExists fsRead json_path db_path st1 = .ok (st1, uc, gc, log) := by
  unfold migrate_levels at h ⊢
  by_cases he : fsExists json_path
  · rw [if_pos he] at h ⊢
    cases hr : fsRead json_path with
    | none => rw [hr] at h; simp at h
    | some data =>
      rw [hr] at h
      dsimp only at h ⊢
      cases hd : migrate_doc data emptyDB with
      | error e => rw [hd] at h; simp at h
      | ok res =>
        obtain ⟨st0, u0, g0, l0⟩ := res
        rw [hd] at h
        dsimp only at h
        simp only [Except.ok.injEq, Prod.mk.injEq] at h
        obtain ⟨h1, h2, h3, h4⟩ := h
        subst h1 h2 h3
        rw [migrate_doc_idem data st0 u0 g0 l0 hd]
        dsimp only
        rw [h4]
  · rw [if_neg he] at h ⊢
    simp only [Except.ok.injEq, Prod.mk.injEq] at h
    obtain ⟨h1, h2, h3, h4⟩ := h
    subst h1 h2 h3
    rw [h4]

/-- The one-guild, one-user sample document for the idempotence witness. -/
def sampleDoc : JVal := .obj [("10", .obj [("1", .obj [])])]

/-- The store produced by migrating the sample document into an empty
store. -/
def sampleStore : DB := ⟨[((1, 10), mkUserRow 1 10 [])], []⟩

/-- Witness for C1: a second run over the store the first run produced
returns that store and the first run's counts and log unchanged. -/
theorem claim_C1_idempotence_witness :
    migrate_levels (fun _ => true) (fun _ => some sampleDoc) "levels.json" "data/leveling.db"
        sampleStore =
      .ok (sampleStore, 1, 0,
        ["Loading levels from " ++ "levels.json" ++ "...",
         "Connecting to database " ++ "data/leveling.db" ++ "...",
         "Migrating users...",
         "Migrated " ++ toString 1 ++ " user profiles.",
         "Migrating daily goals...",
         "Migrated " ++ toString 0 ++ " daily goals.",
         "Migration complete."]) :=
  claim_C1_idempotence (fun _ => true) (fun _ => some sampleDoc) "levels.json" "data/leveling.db"
    sampleStore 1 0
    ["Loading levels from " ++ "levels.json" ++ "...",
     "Connecting to database " ++ "data/leveling.db" ++ "...",
     "Migrating users...",
     "Migrated " ++ toString 1 ++ " user profiles.",
     "Migrating daily goals...",
     "Migrated " ++ toString 0 ++ " daily goals.",
     "Migration complete."] rfl

end MigrateLevels
